import Mathlib

set_option maxRecDepth 100000

/- Batteries marks rational arithmetic `@[irreducible]`; restore
reducibility so that concrete ledger states evaluate by `decide`. -/
attribute [local semireducible] Rat.add Rat.sub Rat.mul Rat.inv

/-!
Verification development for the confidential-escrow chaincode
(wallets, digital-asset tokens, escrow state machine).

The Go transaction routines are shallowly embedded as pure functions on an
explicit ledger state.  Modelling conventions:

* Token amounts (Go `float64`) are modelled as exact rationals `Rat`;
  the source only ever adds, subtracts and compares amounts, and the
  intended arithmetic is exact.
* The ledger store (`stub.Get` / `Put`, keys namespaced `wallet:U`,
  `escrow:I`, `digitalAsset:A`, `userdir` by public-key hash) is modelled
  as four association lists keyed by the UUID part of the key.
* Asset references (`{"@key": "digitalAsset:<id>"}` or plain id strings)
  are modelled by the extracted asset id, exactly the value the source
  computes with `strings.Split(ref["@key"], ":")[1]` before comparing.
* A routine returning a cc-tools error is an `Except.error`; the Fabric
  host discards the transaction write set when a routine errors, so
  `applyTx` commits the returned ledger only on success.
* A Go runtime panic (out-of-range index, failed type assertion on a nil
  field) also aborts the transaction; it is modelled by `CCError.goPanic`.
* SHA-256 (Go `crypto/sha256` + `hex.EncodeToString`, used for user
  directory keys and escrow condition values) is implemented bit-exactly
  below over UTF-8 bytes with lower-case hex output.
-/

/-! ## SHA-256 over byte lists (crypto/sha256 + encoding/hex) -/

def M32 : Nat := 4294967296

def w32 (n : Nat) : Nat := n % M32

def rotr (n x : Nat) : Nat := ((x >>> n) ||| (x <<< (32 - n))) % M32

def bigSigma0 (x : Nat) : Nat := rotr 2 x ^^^ rotr 13 x ^^^ rotr 22 x

def bigSigma1 (x : Nat) : Nat := rotr 6 x ^^^ rotr 11 x ^^^ rotr 25 x

def smallSigma0 (x : Nat) : Nat := rotr 7 x ^^^ rotr 18 x ^^^ (x >>> 3)

def smallSigma1 (x : Nat) : Nat := rotr 17 x ^^^ rotr 19 x ^^^ (x >>> 10)

def chFn (x y z : Nat) : Nat := (x &&& y) ^^^ ((x ^^^ 4294967295) &&& z)

def majFn (x y z : Nat) : Nat := (x &&& y) ^^^ (x &&& z) ^^^ (y &&& z)

def sha256K : List Nat :=
  [1116352408, 1899447441, 3049323471, 3921009573, 961987163,
   1508970993, 2453635748, 2870763221, 3624381080, 310598401,
   607225278, 1426881987, 1925078388, 2162078206, 2614888103,
   3248222580, 3835390401, 4022224774, 264347078, 604807628,
   770255983, 1249150122, 1555081692, 1996064986, 2554220882,
   2821834349, 2952996808, 3210313671, 3336571891, 3584528711,
   113926993, 338241895, 666307205, 773529912, 1294757372,
   1396182291, 1695183700, 1986661051, 2177026350, 2456956037,
   2730485921, 2820302411, 3259730800, 3345764771, 3516065817,
   3600352804, 4094571909, 275423344, 430227734, 506948616,
   659060556, 883997877, 958139571, 1322822218, 1537002063,
   1747873779, 1955562222, 2024104815, 2227730452, 2361852424,
   2428436474, 2756734187, 3204031479, 3329325298]

def sha256InitH : List Nat :=
  [0x6a09e667, 0xbb67ae85, 0x3c6ef372, 0xa54ff53a, 0x510e527f, 0x9b05688c, 0x1f83d9ab, 0x5be0cd19]

/-- Big-endian 8-byte encoding of a natural number. -/
def be64 (n : Nat) : List Nat :=
  [(n >>> 56) % 256, (n >>> 48) % 256, (n >>> 40) % 256, (n >>> 32) % 256,
   (n >>> 24) % 256, (n >>> 16) % 256, (n >>> 8) % 256, n % 256]

/-- SHA-256 padding: append 0x80, zero bytes to 56 mod 64, then the
bit length as a big-endian 64-bit integer. -/
def sha256pad (msg : List Nat) : List Nat :=
  msg ++ [0x80] ++ List.replicate ((119 - msg.length % 64) % 64) 0 ++ be64 (8 * msg.length)

/-- Group bytes into big-endian 32-bit words. -/
def bytesToWords : List Nat → List Nat
  | b0 :: b1 :: b2 :: b3 :: rest =>
      (((b0 * 256 + b1) * 256 + b2) * 256 + b3) :: bytesToWords rest
  | _ => []

/-- Group a word list into 16-word blocks (fuel-based structural recursion,
so that the kernel can evaluate it). -/
def wordsToBlocksAux : Nat → List Nat → List (List Nat)
  | 0, _ => []
  | _, [] => []
  | fuel + 1, ws => ws.take 16 :: wordsToBlocksAux fuel (ws.drop 16)

def wordsToBlocks (ws : List Nat) : List (List Nat) :=
  wordsToBlocksAux ws.length ws

/-- Extend a 16-word block to the 64-word message schedule. -/
def sha256Schedule (block : List Nat) : Array Nat :=
  (List.range 48).foldl
    (fun w j =>
      let i := j + 16
      let s0 := smallSigma0 (w.getD (i - 15) 0)
      let s1 := smallSigma1 (w.getD (i - 2) 0)
      w.push ((w.getD (i - 16) 0 + s0 + w.getD (i - 7) 0 + s1) % M32))
    block.toArray

/-- One SHA-256 compression step over the running hash state
`[a, b, c, d, e, f, g, h]`. -/
def sha256Round (w : Array Nat) (st : List Nat) (i : Nat) : List Nat :=
  match st with
  | [a, b, c, d, e, f, g, hh] =>
      let t1 := (hh + bigSigma1 e + chFn e f g + sha256K.getD i 0 + w.getD i 0) % M32
      let t2 := (bigSigma0 a + majFn a b c) % M32
      [(t1 + t2) % M32, a, b, c, (d + t1) % M32, e, f, g]
  | _ => st

/-- Compress one 16-word block into the running hash. -/
def sha256Compress (h : List Nat) (block : List Nat) : List Nat :=
  let w := sha256Schedule block
  let st := (List.range 64).foldl (sha256Round w) h
  (h.zip st).map (fun p => (p.1 + p.2) % M32)

/-- SHA-256 digest (as eight 32-bit words) of a byte list. -/
def sha256Words (msg : List Nat) : List Nat :=
  (wordsToBlocks (bytesToWords (sha256pad msg))).foldl sha256Compress sha256InitH

def hexDigit (n : Nat) : Char :=
  "0123456789abcdef".toList.getD n '0'

/-- Lower-case hex encoding of a byte list. -/
def bytesToHex (bs : List Nat) : String :=
  String.mk ((bs.map (fun b => [hexDigit (b / 16), hexDigit (b % 16)])).flatten)

def wordToBytes (w : Nat) : List Nat :=
  [(w >>> 24) % 256, (w >>> 16) % 256, (w >>> 8) % 256, w % 256]

/-- UTF-8 encoding of a character, matching Go's `[]byte(string)`. -/
def charUtf8 (c : Char) : List Nat :=
  let n := c.toNat
  if n < 128 then [n]
  else if n < 2048 then [192 + n / 64, 128 + n % 64]
  else if n < 65536 then [224 + n / 4096, 128 + n / 64 % 64, 128 + n % 64]
  else [240 + n / 262144, 128 + n / 4096 % 64, 128 + n / 64 % 64, 128 + n % 64]

def strBytes (s : String) : List Nat :=
  (s.data.map charUtf8).flatten

/-- `hex.EncodeToString(sha256.Sum256([]byte(s)))`: the lower-case hex
SHA-256 digest of a string, as used throughout the chaincode. -/
def sha256Hex (s : String) : String :=
  bytesToHex ((sha256Words (strBytes s)).map wordToBytes).flatten

/-! ## Data model (cc-tools asset records) -/

/-- A `wallet` record.  `digitalAssetTypes`, `balances` and
`escrowBalances` are the parallel per-asset arrays of the source.
`escrowBalances` is optional: the property is not `Required` and several
routines guard `GetProp("escrowBalances") != nil`.  The owner identity
prop is written as `ownerId` in some files and `ownerPubKey` in others
(always only copied through); it is modelled as the single field
`ownerPubKey`. -/
structure Wallet where
  walletId : String
  ownerPubKey : String
  ownerCertHash : String
  digitalAssetTypes : List String
  balances : List Rat
  escrowBalances : Option (List Rat)
  deriving Repr, DecidableEq

/-- An `escrow` record.  `buyerWalletUUID`, `sellerWalletUUID` and
`parcelId` are only written by the create-and-lock variant; escrows made
by the plain `createEscrow` carry them inertly (that variant never reads
them). -/
structure Escrow where
  escrowId : String
  buyerPubKey : String
  sellerPubKey : String
  buyerWalletUUID : String
  sellerWalletUUID : String
  parcelId : String
  amount : Rat
  assetId : String
  conditionValue : String
  status : String
  buyerCertHash : String
  deriving Repr, DecidableEq

/-- A `digitalAsset` record. -/
structure DigitalAsset where
  name : String
  symbol : String
  decimals : Rat
  totalSupply : Rat
  owner : String
  issuerHash : String
  deriving Repr, DecidableEq

/-- A `userdir` record: maps the hex SHA-256 of an owner public key to
the owner's wallet. -/
structure UserDirEntry where
  walletUUID : String
  certHash : String
  deriving Repr, DecidableEq

/-- The ledger key-value state, split by record kind.  Wallets are keyed
by wallet UUID (`wallet:<uuid>`), escrows by escrow id
(`escrow:<id>`), digital assets by asset id (`digitalAsset:<id>`) and
user-directory entries by `publicKeyHash`. -/
structure Ledger where
  wallets : List (String × Wallet)
  escrows : List (String × Escrow)
  digitalAssets : List (String × DigitalAsset)
  userdirs : List (String × UserDirEntry)
  deriving Repr, DecidableEq

/-- `stub.Get`: first association for a key. -/
def lookupKV {α : Type} : List (String × α) → String → Option α
  | [], _ => none
  | (k, v) :: rest, key => if k = key then some v else lookupKV rest key

/-- `stub.Put`: overwrite the association if present, else append. -/
def putKV {α : Type} : List (String × α) → String → α → List (String × α)
  | [], key, v => [(key, v)]
  | (k, w) :: rest, key, v =>
      if k = key then (k, v) :: rest else (k, w) :: putKV rest key v

/-- cc-tools / Go errors.  `ccErr msg status` is `errors.NewCCError`;
`wrapErr msg` wraps a failed store read (`errors.WrapErrorWithStatus`);
`goPanic` is a Go runtime panic (out-of-range slice index or failed type
assertion), which also aborts the transaction. -/
inductive CCError
  | ccErr (msg : String) (status : Nat)
  | wrapErr (msg : String)
  | goPanic
  deriving Repr, DecidableEq

deriving instance DecidableEq for Except

/-- The Fabric host commits a transaction's write set only when the
routine succeeds; an error (or panic) discards every write. -/
def applyTx (f : Ledger → Except CCError Ledger) (l : Ledger) : Ledger :=
  match f l with
  | .ok l' => l'
  | .error _ => l

/-- The asset-lookup loop shared by every routine: the first index whose
reference (after `strings.Split(ref["@key"], ":")[1]` extraction) equals
the asset id. -/
def findAssetIdx (refs : List String) (assetId : String) : Option Nat :=
  refs.findIdx? (· = assetId)

/-- The `escrowBalances`-nil guard used by the locking and release
routines: use the stored array, or an all-zero array of the same length
as `balances`. -/
def ebOrInit (w : Wallet) : List Rat :=
  match w.escrowBalances with
  | some ebs => ebs
  | none => List.replicate w.balances.length 0

/-- Go slice read `xs[i]` with `.(float64)` assertion: panics out of
range. -/
def sliceGet (xs : List Rat) (i : Nat) : Except CCError Rat :=
  match xs[i]? with
  | some v => .ok v
  | none => .error .goPanic

/-- Value of a `some` option, or the given error (`key.Get` / map lookup
failure). -/
def orThrow {α : Type} (o : Option α) (e : CCError) : Except CCError α :=
  match o with
  | some v => .ok v
  | none => .error e

/-! ## Escrow transactions, four-step variant
(samples/chaincode/confidential-escrow/chaincode/transactions/escrow.go) -/

namespace SamplesEscrow

/-- `lockFundsInEscrow`: authorizes against the payer wallet's
`ownerCertHash`, moves `amount` from `balances` to `escrowBalances` at
the asset's index, then reads the escrow and rewrites it with status
`"Active"`.  Note: the routine performs no check of the escrow's current
status. -/
def LockFundsInEscrow (l : Ledger) (escrowId payerWalletId : String) (amount : Rat)
    (assetId payerCertHash : String) : Except CCError Ledger :=
  match lookupKV l.wallets payerWalletId with
  | none => .error (.wrapErr "Error reading payer wallet")
  | some payerWallet =>
    if payerWallet.ownerCertHash ≠ payerCertHash then
      .error (.ccErr "Unauthorized: Certificate hash mismatch" 403)
    else
      let balances := payerWallet.balances
      let escrowBalances := ebOrInit payerWallet
      match findAssetIdx payerWallet.digitalAssetTypes assetId with
      | none => .error (.ccErr "Asset not found in wallet" 404)
      | some i =>
        match sliceGet balances i with
        | .error e => .error e
        | .ok currentBalance =>
          if currentBalance < amount then
            .error (.ccErr "Insufficient balance" 400)
          else
            match sliceGet escrowBalances i with
            | .error e => .error e
            | .ok currentEscrowBalance =>
              let updatedWallet := { payerWallet with
                balances := balances.set i (currentBalance - amount),
                escrowBalances := some (escrowBalances.set i (currentEscrowBalance + amount)) }
              let l1 : Ledger := { l with wallets := putKV l.wallets payerWalletId updatedWallet }
              match lookupKV l1.escrows escrowId with
              | none => .error (.wrapErr "Error reading escrow")
              | some escrowAsset =>
                .ok { l1 with
                  escrows := putKV l1.escrows escrowId { escrowAsset with status := "Active" } }

/-- `verifyEscrowCondition`: requires status `"Active"`, recomputes
`SHA256(secret + parcelId)` and compares it with the stored
`conditionValue`; on success rewrites the escrow with status
`"ReadyForRelease"`. -/
def VerifyEscrowCondition (l : Ledger) (escrowId secret parcelId : String) :
    Except CCError Ledger :=
  match lookupKV l.escrows escrowId with
  | none => .error (.wrapErr "Error reading escrow")
  | some escrowAsset =>
    if escrowAsset.status ≠ "Active" then
      .error (.ccErr "Escrow is not active" 400)
    else if sha256Hex (secret ++ parcelId) ≠ escrowAsset.conditionValue then
      .error (.ccErr "Condition verification failed: hash mismatch" 403)
    else
      .ok { l with
        escrows := putKV l.escrows escrowId { escrowAsset with status := "ReadyForRelease" } }

/-- `releaseEscrow` (four-step variant): requires status
`"ReadyForRelease"`, subtracts the escrow amount from the payer's
`escrowBalances` (requiring sufficiency), adds it to the payee's
`balances` (appending a new asset slot with escrowed balance `0` if the
payee does not hold the asset), then rewrites payer wallet, payee wallet
and escrow (status `"Released"`) in that order.  No certificate-hash
argument exists in this variant. -/
def ReleaseEscrow (l : Ledger) (escrowId payerWalletId payeeWalletId : String) :
    Except CCError Ledger :=
  match lookupKV l.escrows escrowId with
  | none => .error (.wrapErr "Error reading escrow")
  | some escrowAsset =>
    if escrowAsset.status ≠ "ReadyForRelease" then
      .error (.ccErr "Escrow is not ready for release" 400)
    else
      let escrowAmount := escrowAsset.amount
      let assetId := escrowAsset.assetId
      match lookupKV l.wallets payerWalletId with
      | none => .error (.wrapErr "Error reading payer wallet")
      | some payerWallet =>
        match lookupKV l.wallets payeeWalletId with
        | none => .error (.wrapErr "Error reading payee wallet")
        | some payeeWallet =>
          match payerWallet.escrowBalances with
          | none => .error .goPanic
          | some payerEscrowBalances =>
            match findAssetIdx payerWallet.digitalAssetTypes assetId with
            | none => .error (.ccErr "Asset not found in payer wallet" 404)
            | some i =>
              match sliceGet payerEscrowBalances i with
              | .error e => .error e
              | .ok currentEscrowBalance =>
                if currentEscrowBalance < escrowAmount then
                  .error (.ccErr "Insufficient escrow balance" 400)
                else
                  let payeeEscrowBalances := ebOrInit payeeWallet
                  let payeeUpd : Except CCError (List String × List Rat × List Rat) :=
                    match findAssetIdx payeeWallet.digitalAssetTypes assetId with
                    | some j =>
                      match sliceGet payeeWallet.balances j with
                      | .error e => .error e
                      | .ok currentBalance =>
                        .ok (payeeWallet.digitalAssetTypes,
                             payeeWallet.balances.set j (currentBalance + escrowAmount),
                             payeeEscrowBalances)
                    | none =>
                      .ok (payeeWallet.digitalAssetTypes ++ [assetId],
                           payeeWallet.balances ++ [escrowAmount],
                           payeeEscrowBalances ++ [0])
                  match payeeUpd with
                  | .error e => .error e
                  | .ok (payeeDats, payeeBals, payeeEbs) =>
                    let updatedPayer := { payerWallet with
                      escrowBalances :=
                        some (payerEscrowBalances.set i (currentEscrowBalance - escrowAmount)) }
                    let l1 : Ledger :=
                      { l with wallets := putKV l.wallets payerWalletId updatedPayer }
                    let updatedPayee := { payeeWallet with
                      digitalAssetTypes := payeeDats,
                      balances := payeeBals,
                      escrowBalances := some payeeEbs }
                    let l2 : Ledger :=
                      { l1 with wallets := putKV l1.wallets payeeWalletId updatedPayee }
                    .ok { l2 with
                      escrows := putKV l2.escrows escrowId
                        { escrowAsset with status := "Released" } }

/-- `refundEscrow` (four-step variant): rejects escrows already
`"Released"` or `"Refunded"`, moves the escrow amount from the payer's
`escrowBalances` (requiring sufficiency) back to `balances`, and
rewrites the escrow with status `"Refunded"`.  No certificate-hash
argument exists in this variant. -/
def RefundEscrow (l : Ledger) (escrowId payerWalletId : String) : Except CCError Ledger :=
  match lookupKV l.escrows escrowId with
  | none => .error (.wrapErr "Error reading escrow")
  | some escrowAsset =>
    if escrowAsset.status = "Released" ∨ escrowAsset.status = "Refunded" then
      .error (.ccErr ("Escrow already " ++ escrowAsset.status) 400)
    else
      let escrowAmount := escrowAsset.amount
      let assetId := escrowAsset.assetId
      match lookupKV l.wallets payerWalletId with
      | none => .error (.wrapErr "Error reading payer wallet")
      | some payerWallet =>
        match payerWallet.escrowBalances with
        | none => .error .goPanic
        | some payerEscrowBalances =>
          match findAssetIdx payerWallet.digitalAssetTypes assetId with
          | none => .error (.ccErr "Asset not found in payer wallet" 404)
          | some i =>
            match sliceGet payerWallet.balances i with
            | .error e => .error e
            | .ok currentBalance =>
              match sliceGet payerEscrowBalances i with
              | .error e => .error e
              | .ok currentEscrowBalance =>
                if currentEscrowBalance < escrowAmount then
                  .error (.ccErr "Insufficient escrow balance" 400)
                else
                  let updatedPayer := { payerWallet with
                    balances := payerWallet.balances.set i (currentBalance + escrowAmount),
                    escrowBalances :=
                      some (payerEscrowBalances.set i (currentEscrowBalance - escrowAmount)) }
                  let l1 : Ledger :=
                    { l with wallets := putKV l.wallets payerWalletId updatedPayer }
                  .ok { l1 with
                    escrows := putKV l1.escrows escrowId
                      { escrowAsset with status := "Refunded" } }

end SamplesEscrow

/-! ## Escrow transactions, one-step variant (src/unnamed/part_007) -/

namespace V2Escrow

/-- `createAndLockEscrow`: resolves seller and buyer wallets through the
user directory (hex SHA-256 of the public key), authorizes against the
buyer wallet's `ownerCertHash`, moves `amount` from the buyer's
`balances` to `escrowBalances`, computes
`conditionValue = SHA256(secret + parcelId)` and stores a new escrow
with status `"Active"` (`PutNew` fails if the escrow id already
exists).  The asset argument is a `->digitalAsset` reference; the model
takes the extracted asset id directly. -/
def CreateAndLockEscrow (l : Ledger) (escrowId buyerPubKey sellerPubKey : String)
    (amount : Rat) (assetId parcelId secret buyerCertHash : String) :
    Except CCError Ledger :=
  match lookupKV l.userdirs (sha256Hex sellerPubKey) with
  | none => .error (.ccErr "Seller wallet not found. Seller must create wallet first." 404)
  | some sellerUserDir =>
    match lookupKV l.userdirs (sha256Hex buyerPubKey) with
    | none => .error (.ccErr "Buyer wallet not found. Buyer must create wallet first." 404)
    | some buyerUserDir =>
      let buyerWalletUUID := buyerUserDir.walletUUID
      match lookupKV l.wallets buyerWalletUUID with
      | none => .error (.wrapErr "Error reading buyer wallet")
      | some buyerWallet =>
        if buyerWallet.ownerCertHash ≠ buyerCertHash then
          .error (.ccErr "Unauthorized: Certificate hash mismatch" 403)
        else
          let balances := buyerWallet.balances
          let escrowBalances := ebOrInit buyerWallet
          match findAssetIdx buyerWallet.digitalAssetTypes assetId with
          | none => .error (.ccErr "Asset not found in wallet" 404)
          | some i =>
            match sliceGet balances i with
            | .error e => .error e
            | .ok currentBalance =>
              if currentBalance < amount then
                .error (.ccErr "Insufficient balance" 400)
              else
                match sliceGet escrowBalances i with
                | .error e => .error e
                | .ok currentEscrowBalance =>
                  let updatedWallet := { buyerWallet with
                    balances := balances.set i (currentBalance - amount),
                    escrowBalances :=
                      some (escrowBalances.set i (currentEscrowBalance + amount)) }
                  let l1 : Ledger :=
                    { l with wallets := putKV l.wallets buyerWalletUUID updatedWallet }
                  match lookupKV l1.escrows escrowId with
                  | some _ => .error (.wrapErr "Error saving escrow on blockchain")
                  | none =>
                    .ok { l1 with
                      escrows := putKV l1.escrows escrowId
                        { escrowId := escrowId
                          buyerPubKey := buyerPubKey
                          sellerPubKey := sellerPubKey
                          buyerWalletUUID := buyerWalletUUID
                          sellerWalletUUID := sellerUserDir.walletUUID
                          parcelId := parcelId
                          amount := amount
                          assetId := assetId
                          conditionValue := sha256Hex (secret ++ parcelId)
                          status := "Active"
                          buyerCertHash := buyerCertHash } }

/-- `verifyEscrowCondition` (one-step variant): identical logic to the
four-step variant, updating only the `status` prop. -/
def VerifyEscrowCondition (l : Ledger) (escrowId secret parcelId : String) :
    Except CCError Ledger :=
  match lookupKV l.escrows escrowId with
  | none => .error (.wrapErr "Error reading escrow")
  | some escrowAsset =>
    if escrowAsset.status ≠ "Active" then
      .error (.ccErr "Escrow is not active" 400)
    else if sha256Hex (secret ++ parcelId) ≠ escrowAsset.conditionValue then
      .error (.ccErr "Condition verification failed: hash mismatch" 403)
    else
      .ok { l with
        escrows := putKV l.escrows escrowId { escrowAsset with status := "ReadyForRelease" } }

/-- `releaseEscrow` (one-step variant): requires status `"Active"`, a
supplied `parcelId` equal to the stored one, and
`SHA256(secret + parcelId)` equal to the stored `conditionValue`;
authorizes the caller as the seller; subtracts the escrow amount from
the buyer's `escrowBalances` (without any sufficiency check) and adds it
to the seller's `balances` (appending a slot if absent); sets status
`"Released"`.  A buyer wallet that does not hold the asset makes the Go
code index the slice at `-1`, a runtime panic. -/
def ReleaseEscrow (l : Ledger) (escrowUUID secret parcelId sellerCertHash : String) :
    Except CCError Ledger :=
  match lookupKV l.escrows escrowUUID with
  | none => .error (.wrapErr "Escrow not found")
  | some escrowAsset =>
    if escrowAsset.status ≠ "Active" then
      .error (.ccErr "Escrow is not active" 400)
    else if escrowAsset.parcelId ≠ parcelId then
      .error (.ccErr "Invalid parcel ID" 403)
    else if sha256Hex (secret ++ parcelId) ≠ escrowAsset.conditionValue then
      .error (.ccErr "Invalid secret" 403)
    else
      match lookupKV l.wallets escrowAsset.sellerWalletUUID with
      | none => .error (.wrapErr "Seller wallet not found")
      | some sellerWallet =>
        if sellerWallet.ownerCertHash ≠ sellerCertHash then
          .error (.ccErr "Unauthorized: Not the seller" 403)
        else
          match lookupKV l.wallets escrowAsset.buyerWalletUUID with
          | none => .error (.wrapErr "Buyer wallet not found")
          | some buyerWallet =>
            let assetId := escrowAsset.assetId
            let amount := escrowAsset.amount
            match buyerWallet.escrowBalances with
            | none => .error .goPanic
            | some buyerEscrowBalances =>
              let sellerEscrowBalances := ebOrInit sellerWallet
              let sellerSlot : List String × List Rat × List Rat × Nat :=
                match findAssetIdx sellerWallet.digitalAssetTypes assetId with
                | some j =>
                  (sellerWallet.digitalAssetTypes, sellerWallet.balances,
                   sellerEscrowBalances, j)
                | none =>
                  (sellerWallet.digitalAssetTypes ++ [assetId],
                   sellerWallet.balances ++ [0],
                   sellerEscrowBalances ++ [0],
                   sellerWallet.digitalAssetTypes.length)
              match sellerSlot with
              | (sellerDats, sellerBals, sellerEbs, sellerIdx) =>
                match findAssetIdx buyerWallet.digitalAssetTypes assetId with
                | none => .error .goPanic
                | some bi =>
                  match sliceGet buyerEscrowBalances bi with
                  | .error e => .error e
                  | .ok buyerEscrowBalance =>
                    match sliceGet sellerBals sellerIdx with
                    | .error e => .error e
                    | .ok sellerBalance =>
                      let updatedBuyer := { buyerWallet with
                        escrowBalances :=
                          some (buyerEscrowBalances.set bi (buyerEscrowBalance - amount)) }
                      let l1 : Ledger := { l with
                        wallets := putKV l.wallets escrowAsset.buyerWalletUUID updatedBuyer }
                      let updatedSeller := { sellerWallet with
                        digitalAssetTypes := sellerDats,
                        balances := sellerBals.set sellerIdx (sellerBalance + amount),
                        escrowBalances := some sellerEbs }
                      let l2 : Ledger := { l1 with
                        wallets := putKV l1.wallets escrowAsset.sellerWalletUUID updatedSeller }
                      .ok { l2 with
                        escrows := putKV l2.escrows escrowUUID
                          { escrowAsset with status := "Released" } }

/-- `refundEscrow` (one-step variant): resolves the wallet to refund
into from the caller-supplied `buyerPubKey` via the user directory (not
from the escrow record), requires status `"Active"`, authorizes against
that wallet's `ownerCertHash`, then moves the escrow amount from that
wallet's `escrowBalances` to its `balances` without any sufficiency
check; sets status `"Refunded"`. -/
def RefundEscrow (l : Ledger) (escrowUUID buyerPubKey buyerCertHash : String) :
    Except CCError Ledger :=
  match lookupKV l.escrows escrowUUID with
  | none => .error (.wrapErr "Escrow not found")
  | some escrowAsset =>
    match lookupKV l.userdirs (sha256Hex buyerPubKey) with
    | none => .error (.ccErr "Buyer wallet not found. Buyer must create wallet first." 404)
    | some buyerUserDir =>
      let buyerWalletUUID := buyerUserDir.walletUUID
      if escrowAsset.status ≠ "Active" then
        .error (.ccErr "Escrow is not active" 400)
      else
        match lookupKV l.wallets buyerWalletUUID with
        | none => .error (.wrapErr "Buyer wallet not found")
        | some buyerWallet =>
          if buyerWallet.ownerCertHash ≠ buyerCertHash then
            .error (.ccErr "Unauthorized: Not the buyer" 403)
          else
            let assetId := escrowAsset.assetId
            let amount := escrowAsset.amount
            match buyerWallet.escrowBalances with
            | none => .error .goPanic
            | some buyerEscrowBalances =>
              match findAssetIdx buyerWallet.digitalAssetTypes assetId with
              | none => .error (.ccErr "Asset not found in wallet" 404)
              | some i =>
                match sliceGet buyerEscrowBalances i with
                | .error e => .error e
                | .ok buyerEscrowBalance =>
                  match sliceGet buyerWallet.balances i with
                  | .error e => .error e
                  | .ok buyerBalance =>
                    let updatedBuyer := { buyerWallet with
                      balances := buyerWallet.balances.set i (buyerBalance + amount),
                      escrowBalances :=
                        some (buyerEscrowBalances.set i (buyerEscrowBalance - amount)) }
                    let l1 : Ledger :=
                      { l with wallets := putKV l.wallets buyerWalletUUID updatedBuyer }
                    .ok { l1 with
                      escrows := putKV l1.escrows escrowUUID
                        { escrowAsset with status := "Refunded" } }

end V2Escrow

/-! ## Token transactions (src/unnamed/part_006) and balance queries
(src/unnamed/part_003) -/

/-- `mintTokens`: resolves the wallet from `pubKey` via the user
directory, authorizes against the digital asset's `issuerHash`, adds
`amount` to the wallet's available balance for the asset (appending a
new slot with escrowed balance `0` if the wallet does not hold it) and
adds `amount` to the asset's `totalSupply`.  The routine performs no
positivity check on `amount`. -/
def MintTokens (l : Ledger) (assetId pubKey : String) (amount : Rat)
    (issuerCertHash : String) : Except CCError Ledger :=
  match lookupKV l.userdirs (sha256Hex pubKey) with
  | none => .error (.ccErr "Buyer wallet not found. Buyer must create wallet first." 404)
  | some userDir =>
    match lookupKV l.digitalAssets assetId with
    | none => .error (.wrapErr "Error reading digital asset")
    | some asset =>
      if asset.issuerHash ≠ issuerCertHash then
        .error (.ccErr "Unauthorized: Only asset issuer can mint tokens" 403)
      else
        match lookupKV l.wallets userDir.walletUUID with
        | none => .error (.wrapErr "Error reading wallet")
        | some walletAsset =>
          match walletAsset.escrowBalances with
          | none => .error .goPanic
          | some escrowBalances =>
            let upd : Except CCError (List String × List Rat × List Rat) :=
              match findAssetIdx walletAsset.digitalAssetTypes assetId with
              | some i =>
                match sliceGet walletAsset.balances i with
                | .error e => .error e
                | .ok currentBalance =>
                  .ok (walletAsset.digitalAssetTypes,
                       walletAsset.balances.set i (currentBalance + amount),
                       escrowBalances)
              | none =>
                .ok (walletAsset.digitalAssetTypes ++ [assetId],
                     walletAsset.balances ++ [amount],
                     escrowBalances ++ [0])
            match upd with
            | .error e => .error e
            | .ok (dats, bals, ebs) =>
              let updatedWallet := { walletAsset with
                digitalAssetTypes := dats, balances := bals, escrowBalances := some ebs }
              let l1 : Ledger := { l with
                wallets := putKV l.wallets userDir.walletUUID updatedWallet }
              .ok { l1 with
                digitalAssets := putKV l1.digitalAssets assetId
                  { asset with totalSupply := asset.totalSupply + amount } }

/-- `burnTokens`: same resolution and issuer authorization as mint;
requires `balances[i] >= amount`, subtracts `amount` from the wallet's
available balance and from `totalSupply`.  `escrowBalances` is copied
through unchanged (no type assertion, so a missing array does not
panic). -/
def BurnTokens (l : Ledger) (assetId pubKey : String) (amount : Rat)
    (issuerCertHash : String) : Except CCError Ledger :=
  match lookupKV l.userdirs (sha256Hex pubKey) with
  | none => .error (.ccErr "Buyer wallet not found. Buyer must create wallet first." 404)
  | some userDir =>
    match lookupKV l.digitalAssets assetId with
    | none => .error (.wrapErr "Error reading digital asset")
    | some asset =>
      if asset.issuerHash ≠ issuerCertHash then
        .error (.ccErr "Unauthorized: Only asset issuer can burn tokens" 403)
      else
        match lookupKV l.wallets userDir.walletUUID with
        | none => .error (.wrapErr "Error reading wallet")
        | some walletAsset =>
          match findAssetIdx walletAsset.digitalAssetTypes assetId with
          | none => .error (.ccErr "Asset not found in wallet" 404)
          | some i =>
            match sliceGet walletAsset.balances i with
            | .error e => .error e
            | .ok currentBalance =>
              if currentBalance < amount then
                .error (.ccErr "Insufficient balance to burn" 400)
              else
                let updatedWallet := { walletAsset with
                  balances := walletAsset.balances.set i (currentBalance - amount) }
                let l1 : Ledger := { l with
                  wallets := putKV l.wallets userDir.walletUUID updatedWallet }
                .ok { l1 with
                  digitalAssets := putKV l1.digitalAssets assetId
                    { asset with totalSupply := asset.totalSupply - amount } }

/-- `transferTokens`: resolves both wallets from public keys via the
user directory, authorizes against the source wallet's `ownerCertHash`,
requires `balances[i] >= amount` on the source, subtracts from the
source's available balance and adds to the destination's (appending a
slot with escrowed balance `0` if absent).  Both wallets are read before
either is written; the source wallet is written first. -/
def TransferTokens (l : Ledger) (fromPubKey toPubKey assetId : String) (amount : Rat)
    (senderCertHash : String) : Except CCError Ledger :=
  match lookupKV l.userdirs (sha256Hex fromPubKey) with
  | none => .error (.ccErr "Buyer wallet not found. Buyer must create wallet first." 404)
  | some fromDir =>
    match lookupKV l.wallets fromDir.walletUUID with
    | none => .error (.wrapErr "Error reading source wallet")
    | some fromWallet =>
      if fromWallet.ownerCertHash ≠ senderCertHash then
        .error (.ccErr "Unauthorized: Sender certificate mismatch" 403)
      else
        match lookupKV l.userdirs (sha256Hex toPubKey) with
        | none => .error (.ccErr "Buyer wallet not found. Buyer must create wallet first." 404)
        | some toDir =>
          match lookupKV l.wallets toDir.walletUUID with
          | none => .error (.wrapErr "Error reading destination wallet")
          | some toWallet =>
            match fromWallet.escrowBalances with
            | none => .error .goPanic
            | some fromEscrowBalances =>
              match findAssetIdx fromWallet.digitalAssetTypes assetId with
              | none => .error (.ccErr "Asset not found in source wallet" 404)
              | some i =>
                match sliceGet fromWallet.balances i with
                | .error e => .error e
                | .ok currentBalance =>
                  if currentBalance < amount then
                    .error (.ccErr "Insufficient balance" 400)
                  else
                    match toWallet.escrowBalances with
                    | none => .error .goPanic
                    | some toEscrowBalances =>
                      let toUpd : Except CCError (List String × List Rat × List Rat) :=
                        match findAssetIdx toWallet.digitalAssetTypes assetId with
                        | some j =>
                          match sliceGet toWallet.balances j with
                          | .error e => .error e
                          | .ok toBalance =>
                            .ok (toWallet.digitalAssetTypes,
                                 toWallet.balances.set j (toBalance + amount),
                                 toEscrowBalances)
                        | none =>
                          .ok (toWallet.digitalAssetTypes ++ [assetId],
                               toWallet.balances ++ [amount],
                               toEscrowBalances ++ [0])
                      match toUpd with
                      | .error e => .error e
                      | .ok (toDats, toBals, toEbs) =>
                        let updatedFrom := { fromWallet with
                          balances := fromWallet.balances.set i (currentBalance - amount),
                          escrowBalances := some fromEscrowBalances }
                        let l1 : Ledger := { l with
                          wallets := putKV l.wallets fromDir.walletUUID updatedFrom }
                        let updatedTo := { toWallet with
                          digitalAssetTypes := toDats, balances := toBals,
                          escrowBalances := some toEbs }
                        .ok { l1 with
                          wallets := putKV l1.wallets toDir.walletUUID updatedTo }

/-- The slot scan of `getBalance`: walks the wallet's asset references
in order, reads each referenced digital-asset record (skipping
references that fail to resolve), and returns the balance at the first
slot whose asset's `symbol` matches. -/
def getBalanceScan (l : Ledger) (assetSymbol : String) (balances : List Rat) :
    List (Nat × String) → Except CCError Rat
  | [] => .error (.ccErr "Asset not found in wallet" 404)
  | (i, ref) :: rest =>
    match lookupKV l.digitalAssets ref with
    | none => getBalanceScan l assetSymbol balances rest
    | some asset =>
      if asset.symbol = assetSymbol then sliceGet balances i
      else getBalanceScan l assetSymbol balances rest

/-- `getBalance`: resolves the wallet from `pubKey` via the user
directory (hex SHA-256 of the key), authorizes against the wallet's
`ownerCertHash`, scans the asset slots by symbol and returns the
available balance.  The routine issues no writes (its type returns no
ledger). -/
def GetBalance (l : Ledger) (pubKey assetSymbol ownerCertHash : String) :
    Except CCError Rat :=
  match lookupKV l.userdirs (sha256Hex pubKey) with
  | none => .error (.ccErr "Buyer wallet not found. Buyer must create wallet first." 404)
  | some userDir =>
    match lookupKV l.wallets userDir.walletUUID with
    | none => .error (.wrapErr "Error reading wallet from blockchain")
    | some walletAsset =>
      if walletAsset.ownerCertHash ≠ ownerCertHash then
        .error (.ccErr "Unauthorized: Certificate hash mismatch" 403)
      else
        getBalanceScan l assetSymbol walletAsset.balances
          walletAsset.digitalAssetTypes.enum

/-- Available-plus-escrowed holding of one wallet for a given asset
(0 when the wallet has no slot for it). -/
def Wallet.holding (w : Wallet) (assetId : String) : Rat :=
  match findAssetIdx w.digitalAssetTypes assetId with
  | some i => w.balances.getD i 0 + (ebOrInit w).getD i 0
  | none => 0

/-- Sum of `available + escrowed` for one asset over every wallet on the
ledger. -/
def Ledger.totalOf (l : Ledger) (assetId : String) : Rat :=
  (l.wallets.map (fun p => p.2.holding assetId)).sum

/-! ## Concrete fixtures used by witnesses and counterexamples -/

def cbdAsset : DigitalAsset :=
  { name := "CBD Token", symbol := "CBD", decimals := 2, totalSupply := 1000,
    owner := "org1-admin", issuerHash := "issuer-hash" }

def walletA : Wallet :=
  { walletId := "alice", ownerPubKey := "pkA", ownerCertHash := "certA",
    digitalAssetTypes := ["cbd"], balances := [10], escrowBalances := some [0] }

def walletB : Wallet :=
  { walletId := "bob", ownerPubKey := "pkB", ownerCertHash := "certB",
    digitalAssetTypes := ["cbd"], balances := [40], escrowBalances := some [0] }

def baseLedger : Ledger :=
  { wallets := [("wA", walletA), ("wB", walletB)],
    escrows := [],
    digitalAssets := [("cbd", cbdAsset)],
    userdirs := [(sha256Hex "pkA", { walletUUID := "wA", certHash := "certA" }),
                 (sha256Hex "pkB", { walletUUID := "wB", certHash := "certB" })] }

/-- An escrow between buyer B and seller A over 40 CBD with condition
value `SHA256("s" + "p1")`, parameterised by its status. -/
def escrowBA (status : String) : Escrow :=
  { escrowId := "e1", buyerPubKey := "pkB", sellerPubKey := "pkA",
    buyerWalletUUID := "wB", sellerWalletUUID := "wA", parcelId := "p1",
    amount := 40, assetId := "cbd", conditionValue := sha256Hex ("s" ++ "p1"),
    status := status, buyerCertHash := "certB" }

def ledgerWithEscrow (status : String) : Ledger :=
  { baseLedger with escrows := [("e1", escrowBA status)] }

/-- Ledger after buyer B locks 40 CBD into escrow `"e1"` (seller A)
through `createAndLockEscrow`. -/
def attackLedger1 : Ledger :=
  applyTx (fun st => V2Escrow.CreateAndLockEscrow st "e1" "pkB" "pkA" 40 "cbd" "p1" "s"
    "certB") baseLedger

/-- Ledger after wallet A's owner then calls the one-step
`refundEscrow` on `"e1"` supplying their own public key and certificate
hash. -/
def attackLedger2 : Ledger :=
  applyTx (fun st => V2Escrow.RefundEscrow st "e1" "pkA" "certA") attackLedger1


/-- A second digital asset not yet held by any wallet. -/
def goldAsset : DigitalAsset :=
  { name := "Gold Token", symbol := "GLD", decimals := 2, totalSupply := 0,
    owner := "org1-admin", issuerHash := "issuer-hash" }

def ledgerWithGold : Ledger :=
  { baseLedger with digitalAssets := baseLedger.digitalAssets ++ [("gld", goldAsset)] }

/-- Wallet B after its 40 CBD have been locked. -/
def walletBLocked : Wallet :=
  { walletB with balances := [0], escrowBalances := some [40] }

/-- An Active escrow whose condition value was computed from secret
`"ab"` and parcel id `"c"` — the same byte concatenation as secret
`"a"` with parcel id `"bc"`. -/
def escrowSplit : Escrow :=
  { escrowId := "e2", buyerPubKey := "pkB", sellerPubKey := "pkA",
    buyerWalletUUID := "wB", sellerWalletUUID := "wA", parcelId := "c",
    amount := 40, assetId := "cbd", conditionValue := sha256Hex ("ab" ++ "c"),
    status := "Active", buyerCertHash := "certB" }

def ledgerSplit : Ledger :=
  { baseLedger with
    wallets := [("wA", walletA), ("wB", walletBLocked)],
    escrows := [("e2", escrowSplit)] }


/-! ## Small facts about store access -/

/-- FIPS 180-4 test vector for the SHA-256 embedding. -/
theorem sha256Hex_abc : sha256Hex "abc" =
    "ba7816bf8f01cfea414140de5dae2223b00361a396177a9cb410ff61f20015ad" := by decide

/-- SHA-256 of the empty string. -/
theorem sha256Hex_empty : sha256Hex "" =
    "e3b0c44298fc1c149afbf4c8996fb92427ae41e4649b934ca495991b7852b855" := by decide


theorem lookupKV_putKV_self {α : Type} (m : List (String × α)) (k : String) (v : α) :
    lookupKV (putKV m k v) k = some v := by
  induction m with
  | nil => simp [putKV, lookupKV]
  | cons p rest ih =>
    by_cases h : p.1 = k
    · simp [putKV, lookupKV, h]
    · simp [putKV, lookupKV, h, ih]

theorem lookupKV_putKV_ne {α : Type} (m : List (String × α)) (k k' : String) (v : α)
    (h : k' ≠ k) : lookupKV (putKV m k v) k' = lookupKV m k' := by
  induction m with
  | nil => simp [putKV, lookupKV, h, Ne.symm h]
  | cons p rest ih =>
    by_cases hp : p.1 = k
    · subst hp
      simp [putKV, lookupKV, h, Ne.symm h]
    · by_cases hp' : p.1 = k'
      · simp [putKV, lookupKV, hp, hp', h]
      · simp [putKV, lookupKV, hp, hp', h, ih]

theorem sliceGet_getD {xs : List Rat} {i : Nat} (h : i < xs.length) :
    sliceGet xs i = .ok (xs.getD i 0) := by
  simp [sliceGet, List.getElem?_eq_getElem h, List.getD_eq_getElem?_getD]

/-! ## C10 — verifyEscrowCondition requires status exactly Active -/

/-- C10: `verifyEscrowCondition` succeeds only from status `"Active"`:
on an escrow whose status is anything else (`"Created"`,
`"ReadyForRelease"`, or a terminal status) it fails with the
`"Escrow is not active"` error — even when the supplied secret and
parcelId hash to the stored condition value — and the transaction
leaves the ledger unchanged. -/
theorem verifyCondition_requires_active (l : Ledger) (eid secret parcelId : String)
    (e : Escrow) (he : lookupKV l.escrows eid = some e) (hs : e.status ≠ "Active") :
    SamplesEscrow.VerifyEscrowCondition l eid secret parcelId =
      .error (.ccErr "Escrow is not active" 400) ∧
    applyTx (fun st => SamplesEscrow.VerifyEscrowCondition st eid secret parcelId) l = l := by
  have h1 : SamplesEscrow.VerifyEscrowCondition l eid secret parcelId =
      .error (.ccErr "Escrow is not active" 400) := by
    unfold SamplesEscrow.VerifyEscrowCondition
    rw [he]
    simp [hs]
  exact ⟨h1, by simp [applyTx, h1]⟩

/-- Witness for C10: a concrete `"ReadyForRelease"` escrow whose stored
condition value matches the supplied `("s", "p1")`; the repeated call
still fails with `"Escrow is not active"` and changes nothing. -/
theorem verifyCondition_requires_active_witness :
    lookupKV (ledgerWithEscrow "ReadyForRelease").escrows "e1" =
      some (escrowBA "ReadyForRelease") ∧
    (escrowBA "ReadyForRelease").conditionValue = sha256Hex ("s" ++ "p1") ∧
    SamplesEscrow.VerifyEscrowCondition (ledgerWithEscrow "ReadyForRelease") "e1" "s" "p1" =
      .error (.ccErr "Escrow is not active" 400) ∧
    applyTx (fun st => SamplesEscrow.VerifyEscrowCondition st "e1" "s" "p1")
      (ledgerWithEscrow "ReadyForRelease") = ledgerWithEscrow "ReadyForRelease" := by
  have h := verifyCondition_requires_active (ledgerWithEscrow "ReadyForRelease") "e1" "s" "p1"
    (escrowBA "ReadyForRelease") (by decide) (by decide)
  exact ⟨by decide, rfl, h.1, h.2⟩

/-! ## C6 — lockFundsInEscrow moves available funds into escrow -/

/-- C6: for a lock-funds invocation on a payer wallet holding the asset
at index `i` (with available balance `bval` and escrowed balance `ebval`
at that index) and an existing escrow: if `bval >= amount` the routine
subtracts `amount` from `balances[i]`, adds it to `escrowBalances[i]`
and rewrites the escrow with status `"Active"`; if `bval < amount` it
fails with the `"Insufficient balance"` error and the transaction
changes nothing. -/
theorem lockFunds_moves_funds (l : Ledger) (eid pwid : String) (amount : Rat)
    (assetId certHash : String) (w : Wallet) (e : Escrow) (i : Nat) (bval ebval : Rat)
    (hw : lookupKV l.wallets pwid = some w)
    (hauth : w.ownerCertHash = certHash)
    (hidx : findAssetIdx w.digitalAssetTypes assetId = some i)
    (hbv : w.balances[i]? = some bval)
    (hebv : (ebOrInit w)[i]? = some ebval)
    (he : lookupKV l.escrows eid = some e) :
    (amount ≤ bval →
      SamplesEscrow.LockFundsInEscrow l eid pwid amount assetId certHash =
        .ok { l with
          wallets := putKV l.wallets pwid { w with
            balances := w.balances.set i (bval - amount),
            escrowBalances := some ((ebOrInit w).set i (ebval + amount)) },
          escrows := putKV l.escrows eid { e with status := "Active" } }) ∧
    (bval < amount →
      SamplesEscrow.LockFundsInEscrow l eid pwid amount assetId certHash =
        .error (.ccErr "Insufficient balance" 400) ∧
      applyTx (fun st => SamplesEscrow.LockFundsInEscrow st eid pwid amount assetId certHash)
        l = l) := by
  constructor
  · intro hge
    have hlt : ¬ (bval < amount) := not_lt.mpr hge
    simp [SamplesEscrow.LockFundsInEscrow, sliceGet, hw, hauth, hidx, hbv, hebv, he, hlt]
  · intro hlt
    have h1 : SamplesEscrow.LockFundsInEscrow l eid pwid amount assetId certHash =
        .error (.ccErr "Insufficient balance" 400) := by
      simp [SamplesEscrow.LockFundsInEscrow, sliceGet, hw, hauth, hidx, hbv, hlt]
    exact ⟨h1, by simp [applyTx, h1]⟩

/-- Witness for C6: locking 40 CBD from wallet B (available 40)
succeeds and moves the funds; locking 40 from wallet A (available 10)
fails with `"Insufficient balance"`. -/
theorem lockFunds_moves_funds_witness :
    (SamplesEscrow.LockFundsInEscrow (ledgerWithEscrow "Created") "e1" "wB" 40 "cbd" "certB" =
      .ok { (ledgerWithEscrow "Created") with
        wallets := putKV (ledgerWithEscrow "Created").wallets "wB" { walletB with
          balances := walletB.balances.set 0 (40 - 40),
          escrowBalances := some ((ebOrInit walletB).set 0 (0 + 40)) },
        escrows := putKV (ledgerWithEscrow "Created").escrows "e1"
          { escrowBA "Created" with status := "Active" } }) ∧
    (SamplesEscrow.LockFundsInEscrow (ledgerWithEscrow "Created") "e1" "wA" 40 "cbd" "certA" =
      .error (.ccErr "Insufficient balance" 400)) := by
  refine ⟨?_, ?_⟩
  · exact (lockFunds_moves_funds (ledgerWithEscrow "Created") "e1" "wB" 40 "cbd" "certB"
      walletB (escrowBA "Created") 0 40 0 (by decide) rfl (by decide) (by decide) (by decide)
      (by decide)).1 (by decide)
  · exact ((lockFunds_moves_funds (ledgerWithEscrow "Created") "e1" "wA" 40 "cbd" "certA"
      walletA (escrowBA "Created") 0 10 0 (by decide) rfl (by decide) (by decide) (by decide)
      (by decide)).2 (by decide)).1

/-! ## C2 — certificate-hash mismatch rejects every mutating operation -/

/-- C2: every mutating operation that takes a caller certificate hash
(lock-funds, one-step release and refund, mint, burn, transfer) rejects
a hash that differs byte-for-byte from the one stored on the implicated
wallet (`ownerCertHash`) or asset (`issuerHash`) with its
`Unauthorized` (403) error, and the transaction produces zero state
change.  (The four-step `releaseEscrow`/`refundEscrow` take no
certificate-hash argument at all, so nothing is quantified for them.)
For operations whose authorization check follows other lookups, the
hypotheses state that those lookups succeed. -/
theorem mutations_reject_bad_certHash (l : Ledger) :
    (∀ eid pwid amount assetId ch w,
      lookupKV l.wallets pwid = some w → w.ownerCertHash ≠ ch →
      SamplesEscrow.LockFundsInEscrow l eid pwid amount assetId ch =
        .error (.ccErr "Unauthorized: Certificate hash mismatch" 403) ∧
      applyTx (fun st => SamplesEscrow.LockFundsInEscrow st eid pwid amount assetId ch)
        l = l) ∧
    (∀ eid secret parcelId ch e sw,
      lookupKV l.escrows eid = some e → e.status = "Active" →
      e.parcelId = parcelId → sha256Hex (secret ++ parcelId) = e.conditionValue →
      lookupKV l.wallets e.sellerWalletUUID = some sw → sw.ownerCertHash ≠ ch →
      V2Escrow.ReleaseEscrow l eid secret parcelId ch =
        .error (.ccErr "Unauthorized: Not the seller" 403) ∧
      applyTx (fun st => V2Escrow.ReleaseEscrow st eid secret parcelId ch) l = l) ∧
    (∀ eid pubKey ch e d w,
      lookupKV l.escrows eid = some e →
      lookupKV l.userdirs (sha256Hex pubKey) = some d → e.status = "Active" →
      lookupKV l.wallets d.walletUUID = some w → w.ownerCertHash ≠ ch →
      V2Escrow.RefundEscrow l eid pubKey ch =
        .error (.ccErr "Unauthorized: Not the buyer" 403) ∧
      applyTx (fun st => V2Escrow.RefundEscrow st eid pubKey ch) l = l) ∧
    (∀ assetId pubKey amount ch d a,
      lookupKV l.userdirs (sha256Hex pubKey) = some d →
      lookupKV l.digitalAssets assetId = some a → a.issuerHash ≠ ch →
      MintTokens l assetId pubKey amount ch =
        .error (.ccErr "Unauthorized: Only asset issuer can mint tokens" 403) ∧
      applyTx (fun st => MintTokens st assetId pubKey amount ch) l = l) ∧
    (∀ assetId pubKey amount ch d a,
      lookupKV l.userdirs (sha256Hex pubKey) = some d →
      lookupKV l.digitalAssets assetId = some a → a.issuerHash ≠ ch →
      BurnTokens l assetId pubKey amount ch =
        .error (.ccErr "Unauthorized: Only asset issuer can burn tokens" 403) ∧
      applyTx (fun st => BurnTokens st assetId pubKey amount ch) l = l) ∧
    (∀ fromPk toPk assetId amount ch d w,
      lookupKV l.userdirs (sha256Hex fromPk) = some d →
      lookupKV l.wallets d.walletUUID = some w → w.ownerCertHash ≠ ch →
      TransferTokens l fromPk toPk assetId amount ch =
        .error (.ccErr "Unauthorized: Sender certificate mismatch" 403) ∧
      applyTx (fun st => TransferTokens st fromPk toPk assetId amount ch) l = l) := by
  refine ⟨?_, ?_, ?_, ?_, ?_, ?_⟩
  · intro eid pwid amount assetId ch w hw hne
    have h : SamplesEscrow.LockFundsInEscrow l eid pwid amount assetId ch =
        .error (.ccErr "Unauthorized: Certificate hash mismatch" 403) := by
      simp [SamplesEscrow.LockFundsInEscrow, hw, hne]
    exact ⟨h, by simp [applyTx, h]⟩
  · intro eid secret parcelId ch e sw he hact hpar hcond hsw hne
    have h : V2Escrow.ReleaseEscrow l eid secret parcelId ch =
        .error (.ccErr "Unauthorized: Not the seller" 403) := by
      simp [V2Escrow.ReleaseEscrow, he, hact, hpar, hcond, hsw, hne]
    exact ⟨h, by simp [applyTx, h]⟩
  · intro eid pubKey ch e d w he hd hact hw hne
    have h : V2Escrow.RefundEscrow l eid pubKey ch =
        .error (.ccErr "Unauthorized: Not the buyer" 403) := by
      simp [V2Escrow.RefundEscrow, he, hd, hact, hw, hne]
    exact ⟨h, by simp [applyTx, h]⟩
  · intro assetId pubKey amount ch d a hd ha hne
    have h : MintTokens l assetId pubKey amount ch =
        .error (.ccErr "Unauthorized: Only asset issuer can mint tokens" 403) := by
      simp [MintTokens, hd, ha, hne]
    exact ⟨h, by simp [applyTx, h]⟩
  · intro assetId pubKey amount ch d a hd ha hne
    have h : BurnTokens l assetId pubKey amount ch =
        .error (.ccErr "Unauthorized: Only asset issuer can burn tokens" 403) := by
      simp [BurnTokens, hd, ha, hne]
    exact ⟨h, by simp [applyTx, h]⟩
  · intro fromPk toPk assetId amount ch d w hd hw hne
    have h : TransferTokens l fromPk toPk assetId amount ch =
        .error (.ccErr "Unauthorized: Sender certificate mismatch" 403) := by
      simp [TransferTokens, hd, hw, hne]
    exact ⟨h, by simp [applyTx, h]⟩

/-- Witness for C2: with a wrong certificate hash `"bad"`, lock-funds
on wallet A and mint on the CBD asset both reject with their 403
`Unauthorized` errors and leave the ledger unchanged. -/
theorem mutations_reject_bad_certHash_witness :
    (SamplesEscrow.LockFundsInEscrow (ledgerWithEscrow "Created") "e1" "wA" 5 "cbd" "bad" =
      .error (.ccErr "Unauthorized: Certificate hash mismatch" 403)) ∧
    (MintTokens baseLedger "cbd" "pkA" 5 "bad" =
      .error (.ccErr "Unauthorized: Only asset issuer can mint tokens" 403)) ∧
    applyTx (fun st => MintTokens st "cbd" "pkA" 5 "bad") baseLedger = baseLedger := by
  have h1 := (mutations_reject_bad_certHash (ledgerWithEscrow "Created")).1 "e1" "wA" 5 "cbd"
    "bad" walletA (by decide) (by decide)
  have h4 := (mutations_reject_bad_certHash baseLedger).2.2.2.1 "cbd" "pkA" 5 "bad"
    { walletUUID := "wA", certHash := "certA" } cbdAsset (by decide) (by decide) (by decide)
  exact ⟨h1.1, h4.1, h4.2⟩

/-! ## C8 — getBalance resolution, authorization, and symbol scan -/

theorem getBalanceScan_notFound (l : Ledger) (sym : String) (bals : List Rat)
    (slots : List (Nat × String))
    (h : ∀ p ∈ slots, ∀ a, lookupKV l.digitalAssets p.2 = some a → a.symbol ≠ sym) :
    getBalanceScan l sym bals slots = .error (.ccErr "Asset not found in wallet" 404) := by
  induction slots with
  | nil => rfl
  | cons p rest ih =>
    obtain ⟨i, r⟩ := p
    simp only [getBalanceScan]
    cases hl : lookupKV l.digitalAssets r with
    | none => exact ih (fun q hq => h q (List.mem_cons_of_mem _ hq))
    | some a =>
      have hne : a.symbol ≠ sym := h (i, r) (List.mem_cons_self _ _) a hl
      simp only [hne, if_false]
      exact ih (fun q hq => h q (List.mem_cons_of_mem _ hq))

theorem getBalanceScan_found (l : Ledger) (sym : String) (bals : List Rat)
    (pre post : List (Nat × String)) (i : Nat) (r : String) (a : DigitalAsset) (v : Rat)
    (hpre : ∀ p ∈ pre, ∀ b, lookupKV l.digitalAssets p.2 = some b → b.symbol ≠ sym)
    (hr : lookupKV l.digitalAssets r = some a) (hsym : a.symbol = sym)
    (hv : bals[i]? = some v) :
    getBalanceScan l sym bals (pre ++ (i, r) :: post) = .ok v := by
  induction pre with
  | nil => simp [getBalanceScan, hr, hsym, sliceGet, hv]
  | cons p rest ih =>
    obtain ⟨j, s⟩ := p
    simp only [List.cons_append, getBalanceScan]
    cases hl : lookupKV l.digitalAssets s with
    | none => exact ih (fun q hq => hpre q (List.mem_cons_of_mem _ hq))
    | some b =>
      have hne : b.symbol ≠ sym := hpre (j, s) (List.mem_cons_self _ _) b hl
      simp only [hne, if_false]
      exact ih (fun q hq => hpre q (List.mem_cons_of_mem _ hq))

/-- C8: `getBalance` resolves the wallet by looking up the user
directory under the hex SHA-256 of the public key (failing with the
404 not-found error when no entry exists), rejects a certificate hash
differing from the wallet's `ownerCertHash` with the 403 `Unauthorized`
error, and otherwise scans the wallet's asset slots in order, reading
each referenced asset record: it returns `balances[i]` for the first
slot whose asset's symbol matches, and fails with the 404
`"Asset not found in wallet"` error when no slot matches.  The routine
issues no writes (its result type carries no ledger). -/
theorem getBalance_spec (l : Ledger) (pubKey sym ch : String) :
    (lookupKV l.userdirs (sha256Hex pubKey) = none →
      GetBalance l pubKey sym ch =
        .error (.ccErr "Buyer wallet not found. Buyer must create wallet first." 404)) ∧
    (∀ d w, lookupKV l.userdirs (sha256Hex pubKey) = some d →
      lookupKV l.wallets d.walletUUID = some w →
      (w.ownerCertHash ≠ ch →
        GetBalance l pubKey sym ch =
          .error (.ccErr "Unauthorized: Certificate hash mismatch" 403)) ∧
      (w.ownerCertHash = ch →
        ((∀ p ∈ w.digitalAssetTypes.enum, ∀ a,
            lookupKV l.digitalAssets p.2 = some a → a.symbol ≠ sym) →
          GetBalance l pubKey sym ch =
            .error (.ccErr "Asset not found in wallet" 404)) ∧
        (∀ pre post i r a v, w.digitalAssetTypes.enum = pre ++ (i, r) :: post →
          (∀ p ∈ pre, ∀ b, lookupKV l.digitalAssets p.2 = some b → b.symbol ≠ sym) →
          lookupKV l.digitalAssets r = some a → a.symbol = sym →
          w.balances[i]? = some v →
          GetBalance l pubKey sym ch = .ok v))) := by
  constructor
  · intro hd
    simp [GetBalance, hd]
  · intro d w hd hw
    constructor
    · intro hne
      simp [GetBalance, hd, hw, hne]
    · intro hch
      constructor
      · intro hnone
        simp only [GetBalance, hd, hw, hch]
        simp only [ne_eq, not_true_eq_false, if_false]
        exact getBalanceScan_notFound l sym w.balances _ hnone
      · intro pre post i r a v hsplit hpre hr hsym hv
        simp only [GetBalance, hd, hw, hch]
        simp only [ne_eq, not_true_eq_false, if_false]
        rw [hsplit]
        exact getBalanceScan_found l sym w.balances pre post i r a v hpre hr hsym hv

/-- Witness for C8: wallet A holds 10 CBD; `getBalance` with A's key
and certificate returns 10, with a wrong certificate fails 403, and for
an unknown public key fails 404. -/
theorem getBalance_spec_witness :
    GetBalance baseLedger "pkA" "CBD" "certA" = .ok 10 ∧
    GetBalance baseLedger "pkA" "CBD" "bad" =
      .error (.ccErr "Unauthorized: Certificate hash mismatch" 403) ∧
    GetBalance baseLedger "pkZ" "CBD" "certA" =
      .error (.ccErr "Buyer wallet not found. Buyer must create wallet first." 404) := by
  have h := getBalance_spec baseLedger "pkA" "CBD" "certA"
  have h2 := getBalance_spec baseLedger "pkA" "CBD" "bad"
  have h3 := getBalance_spec baseLedger "pkZ" "CBD" "certA"
  refine ⟨?_, ?_, ?_⟩
  · exact (((h.2 { walletUUID := "wA", certHash := "certA" } walletA (by decide)
      (by decide)).2 rfl).2 [] [] 0 "cbd" cbdAsset 10 (by decide) (by decide) (by decide)
      rfl (by decide))
  · exact (h2.2 { walletUUID := "wA", certHash := "certA" } walletA (by decide)
      (by decide)).1 (by decide)
  · exact h3.1 (by decide)

/-! ## C9 — transferTokens never touches escrowed balances -/

/-- C9: under the success conditions of `transferTokens` (both wallets
resolve, sender authorized, source holds the asset with sufficient
available balance), the transaction writes only the two wallet records:
escrows, digital assets and the user directory are untouched, as is
every wallet other than source and destination.  The source wallet's
`escrowBalances` array is written back unchanged; when the destination
already holds the asset its `escrowBalances` array is written back
unchanged, and when it does not, the new slot is appended with escrowed
balance `0`.  Only the `balances` entries of the two wallets at the
transferred asset's index change. -/
theorem transfer_preserves_escrowed (l : Ledger) (fromPk toPk assetId : String)
    (amount : Rat) (ch : String) (fd td : UserDirEntry) (fw tw : Wallet)
    (febs tebs : List Rat) (i : Nat) (fbv : Rat)
    (hfd : lookupKV l.userdirs (sha256Hex fromPk) = some fd)
    (hfw : lookupKV l.wallets fd.walletUUID = some fw)
    (hauth : fw.ownerCertHash = ch)
    (htd : lookupKV l.userdirs (sha256Hex toPk) = some td)
    (htw : lookupKV l.wallets td.walletUUID = some tw)
    (hfeb : fw.escrowBalances = some febs)
    (hfidx : findAssetIdx fw.digitalAssetTypes assetId = some i)
    (hfb : fw.balances[i]? = some fbv)
    (hge : amount ≤ fbv)
    (hteb : tw.escrowBalances = some tebs) :
    (∀ j tbv, findAssetIdx tw.digitalAssetTypes assetId = some j →
      tw.balances[j]? = some tbv →
      TransferTokens l fromPk toPk assetId amount ch =
        .ok { l with
          wallets := putKV (putKV l.wallets fd.walletUUID { fw with
              balances := fw.balances.set i (fbv - amount),
              escrowBalances := some febs })
            td.walletUUID { tw with
              balances := tw.balances.set j (tbv + amount),
              escrowBalances := some tebs } } ∧
      (∀ k, k ≠ fd.walletUUID → k ≠ td.walletUUID →
        lookupKV (applyTx (fun st => TransferTokens st fromPk toPk assetId amount ch)
          l).wallets k = lookupKV l.wallets k) ∧
      (applyTx (fun st => TransferTokens st fromPk toPk assetId amount ch) l).escrows =
        l.escrows ∧
      (applyTx (fun st => TransferTokens st fromPk toPk assetId amount ch)
        l).digitalAssets = l.digitalAssets ∧
      (applyTx (fun st => TransferTokens st fromPk toPk assetId amount ch)
        l).userdirs = l.userdirs ∧
      (lookupKV (applyTx (fun st => TransferTokens st fromPk toPk assetId amount ch)
          l).wallets td.walletUUID).map Wallet.escrowBalances =
        some tw.escrowBalances) ∧
    (findAssetIdx tw.digitalAssetTypes assetId = none →
      TransferTokens l fromPk toPk assetId amount ch =
        .ok { l with
          wallets := putKV (putKV l.wallets fd.walletUUID { fw with
              balances := fw.balances.set i (fbv - amount),
              escrowBalances := some febs })
            td.walletUUID { tw with
              digitalAssetTypes := tw.digitalAssetTypes ++ [assetId],
              balances := tw.balances ++ [amount],
              escrowBalances := some (tebs ++ [0]) } } ∧
      (lookupKV (applyTx (fun st => TransferTokens st fromPk toPk assetId amount ch)
          l).wallets td.walletUUID).map Wallet.escrowBalances =
        some (some (tebs ++ [0]))) := by
  have hlt : ¬ (fbv < amount) := not_lt.mpr hge
  constructor
  · intro j tbv htidx htb
    have h1 : TransferTokens l fromPk toPk assetId amount ch =
        .ok { l with
          wallets := putKV (putKV l.wallets fd.walletUUID { fw with
              balances := fw.balances.set i (fbv - amount),
              escrowBalances := some febs })
            td.walletUUID { tw with
              balances := tw.balances.set j (tbv + amount),
              escrowBalances := some tebs } } := by
      simp [TransferTokens, sliceGet, hfd, hfw, hauth, htd, htw, hfeb, hfidx, hfb, hlt,
            hteb, htidx, htb]
    have happ : applyTx (fun st => TransferTokens st fromPk toPk assetId amount ch) l =
        { l with
          wallets := putKV (putKV l.wallets fd.walletUUID { fw with
              balances := fw.balances.set i (fbv - amount),
              escrowBalances := some febs })
            td.walletUUID { tw with
              balances := tw.balances.set j (tbv + amount),
              escrowBalances := some tebs } } := by
      simp [applyTx, h1]
    refine ⟨h1, ?_, ?_, ?_, ?_, ?_⟩
    · intro k hk1 hk2
      rw [happ]
      simp only []
      rw [lookupKV_putKV_ne _ _ _ _ hk2, lookupKV_putKV_ne _ _ _ _ hk1]
    · rw [happ]
    · rw [happ]
    · rw [happ]
    · rw [happ]
      simp only []
      rw [lookupKV_putKV_self]
      simp [hteb]
  · intro htidx
    have h1 : TransferTokens l fromPk toPk assetId amount ch =
        .ok { l with
          wallets := putKV (putKV l.wallets fd.walletUUID { fw with
              balances := fw.balances.set i (fbv - amount),
              escrowBalances := some febs })
            td.walletUUID { tw with
              digitalAssetTypes := tw.digitalAssetTypes ++ [assetId],
              balances := tw.balances ++ [amount],
              escrowBalances := some (tebs ++ [0]) } } := by
      simp [TransferTokens, sliceGet, hfd, hfw, hauth, htd, htw, hfeb, hfidx, hfb, hlt,
            hteb, htidx]
    refine ⟨h1, ?_⟩
    have happ : applyTx (fun st => TransferTokens st fromPk toPk assetId amount ch) l =
        { l with
          wallets := putKV (putKV l.wallets fd.walletUUID { fw with
              balances := fw.balances.set i (fbv - amount),
              escrowBalances := some febs })
            td.walletUUID { tw with
              digitalAssetTypes := tw.digitalAssetTypes ++ [assetId],
              balances := tw.balances ++ [amount],
              escrowBalances := some (tebs ++ [0]) } } := by
      simp [applyTx, h1]
    rw [happ]
    simp only []
    rw [lookupKV_putKV_self]
    rfl

/-- Witness for C9: transferring 5 CBD from wallet B to wallet A leaves
both wallets' escrowed arrays unchanged and does not touch escrows,
assets or the directory. -/
theorem transfer_preserves_escrowed_witness :
    TransferTokens baseLedger "pkB" "pkA" "cbd" 5 "certB" =
      .ok { baseLedger with
          wallets := putKV (putKV baseLedger.wallets "wB"
                              { walletB with
                                balances := walletB.balances.set 0 (40 - 5),
                                escrowBalances := some [0] })
                           "wA"
                           { walletA with
                             balances := walletA.balances.set 0 (10 + 5),
                             escrowBalances := some [0] } } ∧
    (applyTx (fun st => TransferTokens st "pkB" "pkA" "cbd" 5 "certB") baseLedger).escrows =
      baseLedger.escrows := by
  have h := (transfer_preserves_escrowed baseLedger "pkB" "pkA" "cbd" 5 "certB"
    { walletUUID := "wB", certHash := "certB" } { walletUUID := "wA", certHash := "certA" }
    walletB walletA [0] [0] 0 40 (by decide) (by decide) rfl (by decide) (by decide) rfl
    (by decide) (by decide) (by decide) rfl).1 0 10 (by decide) (by decide)
  exact ⟨h.1, h.2.2.1⟩

/-! ## C1 — escrow status transitions: lockFundsInEscrow checks nothing -/

/-- Counterexample to C1 as stated: `lockFundsInEscrow` performs no
check of the escrow's current status.  Invoked on an escrow whose
status is `"Released"` (with a funded payer wallet) it succeeds — it
does not fail with any error — moves the payer's funds into escrow and
sets the escrow's status back to `"Active"`. -/
theorem lockFunds_reactivates_released_escrow :
    (SamplesEscrow.LockFundsInEscrow (ledgerWithEscrow "Released") "e1" "wB" 40 "cbd"
      "certB").isOk = true ∧
    (lookupKV (applyTx
        (fun st => SamplesEscrow.LockFundsInEscrow st "e1" "wB" 40 "cbd" "certB")
        (ledgerWithEscrow "Released")).escrows "e1").map Escrow.status = some "Active" ∧
    (lookupKV (applyTx
        (fun st => SamplesEscrow.LockFundsInEscrow st "e1" "wB" 40 "cbd" "certB")
        (ledgerWithEscrow "Released")).wallets "wB").map Wallet.balances = some [0] := by
  refine ⟨?_, ?_, ?_⟩ <;> decide

/-- C1 as amended: `verifyEscrowCondition`, `releaseEscrow` and
`refundEscrow` — in both variants — invoked on an escrow whose status is
`"Released"` or `"Refunded"` fail and leave the ledger unchanged (the
four-step verify/release/refund and the one-step verify/release fail
with their invalid-state errors; the one-step refund fails with some
error, which is the invalid-state error whenever the caller's directory
entry resolves).  `lockFundsInEscrow` is excluded: it performs no status
check at all (see the counterexample). -/
theorem escrow_terminal_states_amended (l : Ledger) (eid : String) (e : Escrow)
    (he : lookupKV l.escrows eid = some e)
    (hterm : e.status = "Released" ∨ e.status = "Refunded") :
    (∀ secret parcelId,
      SamplesEscrow.VerifyEscrowCondition l eid secret parcelId =
        .error (.ccErr "Escrow is not active" 400) ∧
      applyTx (fun st => SamplesEscrow.VerifyEscrowCondition st eid secret parcelId)
        l = l) ∧
    (∀ pwid payeeId,
      SamplesEscrow.ReleaseEscrow l eid pwid payeeId =
        .error (.ccErr "Escrow is not ready for release" 400) ∧
      applyTx (fun st => SamplesEscrow.ReleaseEscrow st eid pwid payeeId) l = l) ∧
    (∀ pwid,
      SamplesEscrow.RefundEscrow l eid pwid =
        .error (.ccErr ("Escrow already " ++ e.status) 400) ∧
      applyTx (fun st => SamplesEscrow.RefundEscrow st eid pwid) l = l) ∧
    (∀ secret parcelId,
      V2Escrow.VerifyEscrowCondition l eid secret parcelId =
        .error (.ccErr "Escrow is not active" 400) ∧
      applyTx (fun st => V2Escrow.VerifyEscrowCondition st eid secret parcelId) l = l) ∧
    (∀ secret parcelId ch,
      V2Escrow.ReleaseEscrow l eid secret parcelId ch =
        .error (.ccErr "Escrow is not active" 400) ∧
      applyTx (fun st => V2Escrow.ReleaseEscrow st eid secret parcelId ch) l = l) ∧
    (∀ pubKey ch,
      (V2Escrow.RefundEscrow l eid pubKey ch =
          .error (.ccErr "Buyer wallet not found. Buyer must create wallet first." 404) ∨
        V2Escrow.RefundEscrow l eid pubKey ch =
          .error (.ccErr "Escrow is not active" 400)) ∧
      applyTx (fun st => V2Escrow.RefundEscrow st eid pubKey ch) l = l) := by
  have hact : e.status ≠ "Active" := by
    rcases hterm with h | h <;> simp [h]
  have hrfr : e.status ≠ "ReadyForRelease" := by
    rcases hterm with h | h <;> simp [h]
  refine ⟨?_, ?_, ?_, ?_, ?_, ?_⟩
  · intro secret parcelId
    have h1 : SamplesEscrow.VerifyEscrowCondition l eid secret parcelId =
        .error (.ccErr "Escrow is not active" 400) := by
      simp [SamplesEscrow.VerifyEscrowCondition, he, hact]
    exact ⟨h1, by simp [applyTx, h1]⟩
  · intro pwid payeeId
    have h1 : SamplesEscrow.ReleaseEscrow l eid pwid payeeId =
        .error (.ccErr "Escrow is not ready for release" 400) := by
      simp [SamplesEscrow.ReleaseEscrow, he, hrfr]
    exact ⟨h1, by simp [applyTx, h1]⟩
  · intro pwid
    have h1 : SamplesEscrow.RefundEscrow l eid pwid =
        .error (.ccErr ("Escrow already " ++ e.status) 400) := by
      simp [SamplesEscrow.RefundEscrow, he, hterm]
    exact ⟨h1, by simp [applyTx, h1]⟩
  · intro secret parcelId
    have h1 : V2Escrow.VerifyEscrowCondition l eid secret parcelId =
        .error (.ccErr "Escrow is not active" 400) := by
      simp [V2Escrow.VerifyEscrowCondition, he, hact]
    exact ⟨h1, by simp [applyTx, h1]⟩
  · intro secret parcelId ch
    have h1 : V2Escrow.ReleaseEscrow l eid secret parcelId ch =
        .error (.ccErr "Escrow is not active" 400) := by
      simp [V2Escrow.ReleaseEscrow, he, hact]
    exact ⟨h1, by simp [applyTx, h1]⟩
  · intro pubKey ch
    cases hd : lookupKV l.userdirs (sha256Hex pubKey) with
    | none =>
      have h1 : V2Escrow.RefundEscrow l eid pubKey ch =
          .error (.ccErr "Buyer wallet not found. Buyer must create wallet first." 404) := by
        simp [V2Escrow.RefundEscrow, he, hd]
      exact ⟨Or.inl h1, by simp [applyTx, h1]⟩
    | some d =>
      have h1 : V2Escrow.RefundEscrow l eid pubKey ch =
          .error (.ccErr "Escrow is not active" 400) := by
        simp [V2Escrow.RefundEscrow, he, hd, hact]
      exact ⟨Or.inr h1, by simp [applyTx, h1]⟩

/-- Witness for the amended C1: on the concrete `"Released"` escrow,
the four-step refund fails with `"Escrow already Released"` and the
one-step release fails with `"Escrow is not active"`, both leaving the
ledger unchanged. -/
theorem escrow_terminal_states_amended_witness :
    (SamplesEscrow.RefundEscrow (ledgerWithEscrow "Released") "e1" "wB" =
      .error (.ccErr "Escrow already Released" 400)) ∧
    (V2Escrow.ReleaseEscrow (ledgerWithEscrow "Released") "e1" "s" "p1" "certA" =
      .error (.ccErr "Escrow is not active" 400)) ∧
    applyTx (fun st => SamplesEscrow.RefundEscrow st "e1" "wB")
      (ledgerWithEscrow "Released") = ledgerWithEscrow "Released" := by
  have h := escrow_terminal_states_amended (ledgerWithEscrow "Released") "e1"
    (escrowBA "Released") (by decide) (Or.inl rfl)
  have h3 := h.2.2.1 "wB"
  have h5 := h.2.2.2.2.1 "s" "p1" "certA"
  exact ⟨h3.1, h5.1, h3.2⟩

/-! ## C3 — the one-step refund drives escrowed balances negative -/

/-- C3 fails on the code: the one-step `refundEscrow` resolves the
wallet to refund into from the caller-supplied public key (not from the
escrow) and subtracts the escrow amount from its escrowed balance with
no sufficiency check.  After buyer B locks 40 CBD into escrow `"e1"`,
wallet A's owner refunds `"e1"` into their own wallet: the call
succeeds, A's escrowed balance becomes `-40 < 0` (and A's available
balance rises from 10 to 50), while B's 40 CBD stay escrowed and the
escrow turns terminal. -/
theorem refund_drives_escrowed_negative :
    (V2Escrow.CreateAndLockEscrow baseLedger "e1" "pkB" "pkA" 40 "cbd" "p1" "s"
      "certB").isOk = true ∧
    (V2Escrow.RefundEscrow attackLedger1 "e1" "pkA" "certA").isOk = true ∧
    (lookupKV attackLedger2.wallets "wA").map Wallet.escrowBalances = some (some [-40]) ∧
    (lookupKV attackLedger2.wallets "wA").map Wallet.balances = some [50] ∧
    (lookupKV attackLedger2.wallets "wB").map Wallet.escrowBalances = some (some [40]) ∧
    (lookupKV attackLedger2.escrows "e1").map Escrow.status = some "Refunded" := by
  decide

/-! ## C4 — a self-transfer breaks conservation -/

/-- C4 fails on the code: `transferTokens` reads both wallets before
writing either, so when `fromPubKey = toPubKey` the debited source
record is overwritten by the credited destination copy of the same
record.  Transferring wallet A's entire balance of 10 CBD to itself
succeeds and leaves A with 20 CBD: the per-asset sum over all wallets
rises from 50 to 60 while the asset's `totalSupply` stays 1000 — no
mint occurred. -/
theorem transfer_self_creates_tokens :
    (TransferTokens baseLedger "pkA" "pkA" "cbd" 10 "certA").isOk = true ∧
    Ledger.totalOf baseLedger "cbd" = 50 ∧
    Ledger.totalOf
      (applyTx (fun st => TransferTokens st "pkA" "pkA" "cbd" 10 "certA") baseLedger)
      "cbd" = 60 ∧
    (lookupKV
        (applyTx (fun st => TransferTokens st "pkA" "pkA" "cbd" 10 "certA")
          baseLedger).digitalAssets "cbd").map DigitalAsset.totalSupply = some 1000 := by
  decide

/-! ## C7 — mintTokens performs no positivity check on the amount -/

/-- Counterexample to C7 as stated: `mintTokens` never validates
`amount > 0`.  Minting `0` — and even `-5` — with the correct issuer
hash succeeds; a negative mint silently lowers the wallet's balance and
the asset's `totalSupply` (to 995 here). -/
theorem mint_accepts_nonpositive_amount :
    (MintTokens baseLedger "cbd" "pkA" 0 "issuer-hash").isOk = true ∧
    (MintTokens baseLedger "cbd" "pkA" (-5) "issuer-hash").isOk = true ∧
    (lookupKV
        (applyTx (fun st => MintTokens st "cbd" "pkA" (-5) "issuer-hash")
          baseLedger).digitalAssets "cbd").map DigitalAsset.totalSupply = some 995 ∧
    (lookupKV
        (applyTx (fun st => MintTokens st "cbd" "pkA" (-5) "issuer-hash")
          baseLedger).wallets "wA").map Wallet.balances = some [5] := by
  decide

/-- C7 as amended: `mintTokens` requires the supplied issuer
certificate hash to equal the asset's stored `issuerHash` (rejection is
proved under C2's theorem), but performs no positivity check: for every
amount — positive, zero or negative — on success it adds `amount` to
the asset's `totalSupply` and to the target wallet's available balance
for the asset, appending a new slot with escrowed balance `0` when the
wallet did not previously hold the asset. -/
theorem mint_effects_amended (l : Ledger) (assetId pubKey : String) (amount : Rat)
    (ch : String) (d : UserDirEntry) (a : DigitalAsset) (w : Wallet) (ebs : List Rat)
    (hd : lookupKV l.userdirs (sha256Hex pubKey) = some d)
    (ha : lookupKV l.digitalAssets assetId = some a)
    (hauth : a.issuerHash = ch)
    (hw : lookupKV l.wallets d.walletUUID = some w)
    (hebs : w.escrowBalances = some ebs) :
    (∀ i bv, findAssetIdx w.digitalAssetTypes assetId = some i →
      w.balances[i]? = some bv →
      MintTokens l assetId pubKey amount ch =
        .ok { l with
          wallets := putKV l.wallets d.walletUUID
            { w with
              balances := w.balances.set i (bv + amount),
              escrowBalances := some ebs },
          digitalAssets := putKV l.digitalAssets assetId
            { a with totalSupply := a.totalSupply + amount } }) ∧
    (findAssetIdx w.digitalAssetTypes assetId = none →
      MintTokens l assetId pubKey amount ch =
        .ok { l with
          wallets := putKV l.wallets d.walletUUID
            { w with
              digitalAssetTypes := w.digitalAssetTypes ++ [assetId],
              balances := w.balances ++ [amount],
              escrowBalances := some (ebs ++ [0]) },
          digitalAssets := putKV l.digitalAssets assetId
            { a with totalSupply := a.totalSupply + amount } }) := by
  constructor
  · intro i bv hidx hbv
    simp [MintTokens, sliceGet, hd, ha, hauth, hw, hebs, hidx, hbv]
  · intro hidx
    simp [MintTokens, sliceGet, hd, ha, hauth, hw, hebs, hidx]

/-- Witness for the amended C7: minting 7 CBD to wallet A (which holds
the asset) raises A's balance to 17 and the supply to 1007; minting a
fresh asset `"gld"` to wallet A appends a slot with escrowed balance
0. -/
theorem mint_effects_amended_witness :
    MintTokens baseLedger "cbd" "pkA" 7 "issuer-hash" =
      .ok { baseLedger with
        wallets := putKV baseLedger.wallets "wA"
          { walletA with
            balances := walletA.balances.set 0 (10 + 7),
            escrowBalances := some [0] },
        digitalAssets := putKV baseLedger.digitalAssets "cbd"
          { cbdAsset with totalSupply := 1000 + 7 } } ∧
    MintTokens ledgerWithGold "gld" "pkA" 7 "issuer-hash" =
      .ok { ledgerWithGold with
        wallets := putKV ledgerWithGold.wallets "wA"
          { walletA with
            digitalAssetTypes := walletA.digitalAssetTypes ++ ["gld"],
            balances := walletA.balances ++ [7],
            escrowBalances := some ([0] ++ [0]) },
        digitalAssets := putKV ledgerWithGold.digitalAssets "gld"
          { goldAsset with totalSupply := 0 + 7 } } := by
  constructor
  · exact (mint_effects_amended baseLedger "cbd" "pkA" 7 "issuer-hash"
      { walletUUID := "wA", certHash := "certA" } cbdAsset walletA [0] (by decide)
      (by decide) rfl (by decide) rfl).1 0 10 (by decide) (by decide)
  · exact (mint_effects_amended ledgerWithGold "gld" "pkA" 7 "issuer-hash"
      { walletUUID := "wA", certHash := "certA" } goldAsset walletA [0] (by decide)
      (by decide) rfl (by decide) rfl).2 (by decide)

/-! ## C5 — condition check: the one-step release is not a pure digest
comparison -/

/-- Counterexample to C5 as stated: on the Active escrow `"e2"` whose
condition value is `SHA256("ab" + "c")`, the supplied pair
`("a", "bc")` concatenates to the same bytes, so its digest equals the
stored condition value — yet the one-step `releaseEscrow` rejects it
with `"Invalid parcel ID"` (and changes nothing), because it also
requires the supplied parcel id to equal the stored one.  The same call
with `("ab", "c")` succeeds, so nothing else blocked the release. -/
theorem release_rejects_matching_digest :
    sha256Hex ("a" ++ "bc") = escrowSplit.conditionValue ∧
    escrowSplit.status = "Active" ∧
    V2Escrow.ReleaseEscrow ledgerSplit "e2" "a" "bc" "certA" =
      .error (.ccErr "Invalid parcel ID" 403) ∧
    applyTx (fun st => V2Escrow.ReleaseEscrow st "e2" "a" "bc" "certA") ledgerSplit =
      ledgerSplit ∧
    (V2Escrow.ReleaseEscrow ledgerSplit "e2" "ab" "c" "certA").isOk = true := by
  decide

/-- C5 as amended: `verifyEscrowCondition` (on an Active escrow)
succeeds iff the lower-case hex SHA-256 digest of `secret + parcelId`
equals the stored `conditionValue`, failing on mismatch with the
`ConditionFailed` error and no state change.  The one-step
`releaseEscrow` additionally requires the supplied `parcelId` to equal
the stored one (failing with `"Invalid parcel ID"` before the digest is
even compared) and reports a digest mismatch as `"Invalid secret"`; with
parcel id and digest both matching (and the wallet-side conditions met)
it succeeds.  A one-bit change in the secret (`"r"` for `"s"`) makes
verification fail with `ConditionFailed`. -/
theorem condition_check_amended (l : Ledger) :
    (∀ eid secret parcelId e, lookupKV l.escrows eid = some e → e.status = "Active" →
      ((∃ l2, SamplesEscrow.VerifyEscrowCondition l eid secret parcelId = .ok l2) ↔
        sha256Hex (secret ++ parcelId) = e.conditionValue) ∧
      (sha256Hex (secret ++ parcelId) ≠ e.conditionValue →
        SamplesEscrow.VerifyEscrowCondition l eid secret parcelId =
          .error (.ccErr "Condition verification failed: hash mismatch" 403) ∧
        applyTx (fun st => SamplesEscrow.VerifyEscrowCondition st eid secret parcelId)
          l = l)) ∧
    (∀ eid secret parcelId ch e, lookupKV l.escrows eid = some e → e.status = "Active" →
      (e.parcelId ≠ parcelId →
        V2Escrow.ReleaseEscrow l eid secret parcelId ch =
          .error (.ccErr "Invalid parcel ID" 403) ∧
        applyTx (fun st => V2Escrow.ReleaseEscrow st eid secret parcelId ch) l = l) ∧
      (e.parcelId = parcelId → sha256Hex (secret ++ parcelId) ≠ e.conditionValue →
        V2Escrow.ReleaseEscrow l eid secret parcelId ch =
          .error (.ccErr "Invalid secret" 403) ∧
        applyTx (fun st => V2Escrow.ReleaseEscrow st eid secret parcelId ch) l = l) ∧
      (∀ sw bw bebs bi bebv si sbv,
        e.parcelId = parcelId → sha256Hex (secret ++ parcelId) = e.conditionValue →
        lookupKV l.wallets e.sellerWalletUUID = some sw → sw.ownerCertHash = ch →
        lookupKV l.wallets e.buyerWalletUUID = some bw → bw.escrowBalances = some bebs →
        findAssetIdx bw.digitalAssetTypes e.assetId = some bi → bebs[bi]? = some bebv →
        findAssetIdx sw.digitalAssetTypes e.assetId = some si → sw.balances[si]? = some sbv →
        V2Escrow.ReleaseEscrow l eid secret parcelId ch =
          .ok { l with
            wallets := putKV (putKV l.wallets e.buyerWalletUUID
                { bw with escrowBalances := some (bebs.set bi (bebv - e.amount)) })
              e.sellerWalletUUID
              { sw with
                balances := sw.balances.set si (sbv + e.amount),
                escrowBalances := some (ebOrInit sw) },
            escrows := putKV l.escrows eid { e with status := "Released" } })) ∧
    (SamplesEscrow.VerifyEscrowCondition (ledgerWithEscrow "Active") "e1" "r" "p1" =
      .error (.ccErr "Condition verification failed: hash mismatch" 403)) := by
  refine ⟨?_, ?_, ?_⟩
  · intro eid secret parcelId e he hact
    constructor
    · constructor
      · rintro ⟨l2, hl2⟩
        by_contra hne
        simp [SamplesEscrow.VerifyEscrowCondition, he, hact, hne] at hl2
      · intro hcond
        exact ⟨{ l with
            escrows := putKV l.escrows eid { e with status := "ReadyForRelease" } },
          by simp [SamplesEscrow.VerifyEscrowCondition, he, hact, hcond]⟩
    · intro hne
      have h1 : SamplesEscrow.VerifyEscrowCondition l eid secret parcelId =
          .error (.ccErr "Condition verification failed: hash mismatch" 403) := by
        simp [SamplesEscrow.VerifyEscrowCondition, he, hact, hne]
      exact ⟨h1, by simp [applyTx, h1]⟩
  · intro eid secret parcelId ch e he hact
    refine ⟨?_, ?_, ?_⟩
    · intro hpar
      have h1 : V2Escrow.ReleaseEscrow l eid secret parcelId ch =
          .error (.ccErr "Invalid parcel ID" 403) := by
        simp [V2Escrow.ReleaseEscrow, he, hact, hpar]
      exact ⟨h1, by simp [applyTx, h1]⟩
    · intro hpar hne
      have h1 : V2Escrow.ReleaseEscrow l eid secret parcelId ch =
          .error (.ccErr "Invalid secret" 403) := by
        simp [V2Escrow.ReleaseEscrow, he, hact, hpar, hne]
      exact ⟨h1, by simp [applyTx, h1]⟩
    · intro sw bw bebs bi bebv si sbv hpar hcond hsw hsauth hbw hbebs hbidx hbv hsidx hsv
      simp [V2Escrow.ReleaseEscrow, sliceGet, he, hact, hpar, hcond, hsw, hsauth, hbw,
            hbebs, hbidx, hbv, hsidx, hsv]
  · decide

/-- Witness for the amended C5: on the Active escrow `"e1"` (condition
value `SHA256("s" + "p1")`), verification with `("s", "p1")` succeeds;
and on `"e2"` the one-step release with the stored parcel id `"c"` and
correct secret `"ab"` releases the funds to seller A. -/
theorem condition_check_amended_witness :
    (∃ l2, SamplesEscrow.VerifyEscrowCondition (ledgerWithEscrow "Active") "e1" "s" "p1" =
      .ok l2) ∧
    V2Escrow.ReleaseEscrow ledgerSplit "e2" "ab" "c" "certA" =
      .ok { ledgerSplit with
        wallets := putKV (putKV ledgerSplit.wallets "wB"
            { walletBLocked with escrowBalances := some ([(40:Rat)].set 0 (40 - 40)) })
          "wA"
          { walletA with
            balances := walletA.balances.set 0 (10 + 40),
            escrowBalances := some (ebOrInit walletA) },
        escrows := putKV ledgerSplit.escrows "e2" { escrowSplit with status := "Released" } } := by
  constructor
  · exact (((condition_check_amended (ledgerWithEscrow "Active")).1 "e1" "s" "p1"
      (escrowBA "Active") (by decide) rfl).1).mpr rfl
  · exact ((condition_check_amended ledgerSplit).2.1 "e2" "ab" "c" "certA" escrowSplit
      (by decide) rfl).2.2 walletA walletBLocked [40] 0 40 0 10 rfl rfl (by decide) rfl
      (by decide) rfl (by decide) (by decide) (by decide) (by decide)
